import Mathlib

/-!
# Verification of ChromeCleaner's site-data engine

Shallow embedding of the data-management core of `src/chromecleaner.py`
(the functions `get_unique_sites`, `delete_cookies_for_site`,
`delete_site_data_folders`, `create_backup`, and the audit-log calls they
make).  Filesystem and SQLite effects are made explicit:

* the cookie store is a list of `host_key` column values (one per row);
* SQLite's `LIKE` with its default collation (case-insensitive on the
  ASCII letters, `%`/`_` wildcards in the pattern) is modelled by
  `likeMatch`;
* the audit log is the list of entries appended by a call;
* path existence is a boolean oracle, and Python exceptions are values
  `PyError` carrying the exception class name and message.
-/

namespace ChromeCleaner

/-- Lower-case a single ASCII letter, leaving every other character
unchanged (the case folding SQLite's default `LIKE` applies, and the
folding Python's `str.lower` applies to ASCII data). -/
def charLowerAscii (c : Char) : Char :=
  if 'A' ≤ c ∧ c ≤ 'Z' then Char.ofNat (c.toNat + 32) else c

/-- ASCII lower-casing of a string (Python `str.lower()` restricted to
the ASCII names this program handles). -/
def strLowerAscii (s : String) : String :=
  String.mk (s.data.map charLowerAscii)

/-- `needle` occurs as a contiguous substring of `hay` (Python's
`needle in hay` on strings), on character lists. -/
def listContainsSub (needle : List Char) : List Char → Bool
  | [] => needle.isEmpty
  | c :: cs => needle.isPrefixOf (c :: cs) || listContainsSub needle cs

/-- Python's substring test `needle in hay`. -/
def pyIn (needle hay : String) : Bool :=
  listContainsSub needle.data hay.data

/-- Fuel-indexed core of SQLite `LIKE` matching (the fuel only makes the
recursion structural; every recursive call shrinks `ps.length + cs.length`,
so `likeMatch` below supplies enough fuel for the answer never to hit the
out-of-fuel arm). -/
def likeMatchFuel : Nat → List Char → List Char → Bool
  | 0, _, _ => false
  | fuel + 1, ps, cs =>
    match ps, cs with
    | [], [] => true
    | [], _ :: _ => false
    | '%' :: ps', [] => likeMatchFuel fuel ps' []
    | '%' :: ps', c :: cs' =>
      likeMatchFuel fuel ps' (c :: cs') || likeMatchFuel fuel ('%' :: ps') cs'
    | '_' :: _, [] => false
    | '_' :: ps', _ :: cs' => likeMatchFuel fuel ps' cs'
    | _ :: _, [] => false
    | p :: ps', c :: cs' =>
      (charLowerAscii p == charLowerAscii c) && likeMatchFuel fuel ps' cs'

/-- SQLite `LIKE` matching of a whole text `cs` against pattern `ps`:
`%` matches any (possibly empty) character sequence, `_` matches exactly
one character, and every other pattern character matches a single text
character up to ASCII case (SQLite's default `LIKE` is case-insensitive
for the ASCII range; no `ESCAPE` clause is involved here). -/
def likeMatch (ps cs : List Char) : Bool :=
  likeMatchFuel (ps.length + cs.length + 1) ps cs

/-- `host_key LIKE pattern` for one cookie row. -/
def hostKeyLike (pat host : String) : Bool :=
  likeMatch pat.data host.data

/-- A Python exception value: its class name and its message
(`chromecleaner.py` raises plain `Exception`s with distinguishing
messages, plus one `FileNotFoundError`). -/
structure PyError where
  etype : String
  msg : String
deriving DecidableEq, Repr

/-- One audit-log entry, as appended by `log_deletion(site, deletion_type,
status, details)` (lines 164-171 of the source). -/
structure LogEntry where
  site : String
  category : String
  status : String
  details : String
deriving DecidableEq, Repr

/-- The fixed host-key pattern list built by `delete_cookies_for_site`
(source lines 383-393). -/
def cookiePatterns (site : String) : List String :=
  [site,
   "." ++ site,
   "www." ++ site,
   "m." ++ site,
   "mobile." ++ site,
   "api." ++ site,
   "%." ++ site,
   "%." ++ site ++ ".",
   site ++ "."]

/-- The `for pattern in patterns` loop of `delete_cookies_for_site`
(source lines 395-398): each iteration runs
`DELETE FROM cookies WHERE host_key LIKE ?` on the current table and adds
`cursor.rowcount` (the number of rows just removed) to the running total.
Returns the remaining rows and the accumulated `deleted_count`. -/
def runDeletes : List String → List String → List String × Nat
  | [], db => (db, 0)
  | p :: ps, db =>
    let removed := db.filter (fun h => hostKeyLike p h)
    let kept := db.filter (fun h => !(hostKeyLike p h))
    let rest := runDeletes ps kept
    (rest.1, removed.length + rest.2)

/-- `delete_cookies_for_site(site)` on an open cookie table (source lines
377-404, success path): runs the per-pattern deletes, then appends exactly
one `COOKIES` audit entry whose status is `SUCCESS` when anything was
deleted and `NONE` otherwise.  Returns (remaining rows, deleted count,
appended log entries). -/
def delete_cookies_for_site (site : String) (db : List String) :
    List String × Nat × List LogEntry :=
  let r := runDeletes (cookiePatterns site) db
  (r.1, r.2,
   [⟨site, "COOKIES", if r.2 > 0 then "SUCCESS" else "NONE",
     toString r.2 ++ " deleted"⟩])

/-- The whole of `delete_cookies_for_site` including its `try/except`
(source lines 377-409): the connection/deletion phase either yields the
cookie table (`Except.ok`) or raises (`Except.error`); a raised exception
is caught, one `COOKIES`/`ERROR` audit entry is appended with the
exception's message, and `0` is returned.  The first component is the
resulting table when the deletes ran. -/
def delete_cookies_for_site_caught (site : String)
    (conn : Except PyError (List String)) :
    Option (List String) × Nat × List LogEntry :=
  match conn with
  | .ok db =>
    let r := delete_cookies_for_site site db
    (some r.1, r.2.1, r.2.2)
  | .error e => (none, 0, [⟨site, "COOKIES", "ERROR", e.msg⟩])

/-- A filesystem entry directly under one of the five storage roots
(`path_obj.iterdir()` item): its name and whether it is a directory. -/
structure FsItem where
  name : String
  isDir : Bool
deriving DecidableEq, Repr

/-- The five storage roots walked by `delete_site_data_folders` (source
lines 416-422), each `none` when the root path does not exist and
otherwise the list of its immediate children. -/
structure StorageState where
  localStorage : Option (List FsItem)
  sessionStorage : Option (List FsItem)
  indexedDB : Option (List FsItem)
  cacheStorage : Option (List FsItem)
  scriptCache : Option (List FsItem)
deriving DecidableEq, Repr

/-- `site_lower in item.name.lower()` — the ownership heuristic of
`delete_site_data_folders` (source line 431). -/
def itemMatchesSite (siteLower : String) (it : FsItem) : Bool :=
  pyIn siteLower (strLowerAscii it.name)

/-- Process one storage root (the body of the `for path_obj, path_name`
loop, source lines 424-443): a missing root is skipped; otherwise every
child whose lower-cased name contains the lower-cased site is removed
(`rmtree` for directories, `unlink` for files — removals modelled as
succeeding) and recorded as `"<root name>: <item name>"`. -/
def processRoot (siteLower rootName : String) :
    Option (List FsItem) → Option (List FsItem) × List String
  | none => (none, [])
  | some items =>
    (some (items.filter (fun it => !(itemMatchesSite siteLower it))),
     (items.filter (itemMatchesSite siteLower)).map
       (fun it => rootName ++ ": " ++ it.name))

/-- `delete_site_data_folders(site)` (source lines 411-447): lower-cases
the site, sweeps the five roots in order collecting `deleted_items`, and
appends one `STORAGE`/`SUCCESS` audit entry **only when** `deleted_items`
is non-empty (source lines 445-446).  Returns (new storage state, deleted
item records, appended log entries). -/
def delete_site_data_folders (site : String) (st : StorageState) :
    StorageState × List String × List LogEntry :=
  let sl := strLowerAscii site
  let r1 := processRoot sl "Local Storage" st.localStorage
  let r2 := processRoot sl "Session Storage" st.sessionStorage
  let r3 := processRoot sl "IndexedDB" st.indexedDB
  let r4 := processRoot sl "CacheStorage" st.cacheStorage
  let r5 := processRoot sl "ScriptCache" st.scriptCache
  let deleted := r1.2 ++ r2.2 ++ r3.2 ++ r4.2 ++ r5.2
  let logs : List LogEntry :=
    if deleted.isEmpty then []
    else [⟨site, "STORAGE", "SUCCESS", toString deleted.length ++ " items"⟩]
  (⟨r1.1, r2.1, r3.1, r4.1, r5.1⟩, deleted, logs)

/-- Python `"".lstrip('.')`: remove **all** leading `'.'` characters
(source line 361, `host.lstrip('.')`). -/
def lstripDots (s : String) : String :=
  String.mk (s.data.dropWhile (fun c => c == '.'))

/-- The spec's words for C3's normalization: strip **a single** leading
dot.  Kept separate from `lstripDots` (which is what the source does) so
the two can be compared. -/
def stripOneDot (s : String) : String :=
  match s.data with
  | '.' :: rest => String.mk rest
  | _ => s

/-- First-seen deduplication with an accumulator of already-kept values:
models both SQL `SELECT DISTINCT` (first occurrence kept) and a Python
`if x not in acc: acc.append(x)` loop. -/
def distinctKeep : List String → List String → List String
  | acc, [] => acc
  | acc, x :: xs =>
    if x ∈ acc then distinctKeep acc xs else distinctKeep (acc ++ [x]) xs

/-- The row loop of `get_unique_sites` (source lines 357-363): for each
fetched `host_key`, if it is non-empty, strip its leading dots and append
the result to `sites` when it is still non-empty and not seen before. -/
def collectSites : List String → List String → List String
  | acc, [] => acc
  | acc, h :: hs =>
    if h ≠ "" then
      let h' := lstripDots h
      if h' ≠ "" ∧ h' ∉ acc then collectSites (acc ++ [h']) hs
      else collectSites acc hs
    else collectSites acc hs

/-- Lexicographic (code-point) comparison of character lists, computed
structurally (Python's string `<=`). -/
def listCharLe : List Char → List Char → Bool
  | [], _ => true
  | _ :: _, [] => false
  | a :: as, b :: bs => if a == b then listCharLe as bs else decide (a < b)

/-- Python string `<=`: lexicographic by code point (proved below to
agree with Mathlib's linear order on `String`). -/
def strLe (a b : String) : Bool :=
  listCharLe a.data b.data

/-- Python `sorted` on strings: lexicographic (code-point) order,
realized as an insertion sort. -/
def pySorted (l : List String) : List String :=
  l.insertionSort (fun a b => strLe a b = true)

/-- The pure computation of `get_unique_sites` (source lines 356-368) on
the `host_key` column of the cookies table of the temporary copy: the SQL
`SELECT DISTINCT host_key FROM cookies WHERE host_key IS NOT NULL AND
host_key != ''` (modelled on an `Option String` column, `none` = SQL
NULL), then the row loop, then `sorted(sites)`. -/
def get_unique_sites (col : List (Option String)) : List String :=
  let nonNull := col.filterMap id
  let distinctRows := distinctKeep [] (nonNull.filter (fun h => h ≠ ""))
  pySorted (collectSites [] distinctRows)

/-- What happens once the temporary copy of the cookie store has been
made and opened inside `get_unique_sites`'s `try` block (source lines
347-368): either the `cookies` table is present and the `SELECT` yields a
column, or the table is missing, or reading raises
`sqlite3.OperationalError`, or some other exception is raised. -/
inductive ReadOutcome where
  | rows (col : List (Option String))
  | noTable
  | opErr (msg : String)
  | exnErr (msg : String)
deriving DecidableEq, Repr

/-- The fixed message raised when the store is locked (source line 372). -/
def lockedMsg : String :=
  "Chrome database is locked. Please close Chrome completely."

/-- `get_unique_sites`'s `try/except` over the temporary copy (source
lines 341-375).  First component: the returned site list or the raised
`PyError`.  Second component: whether the private temporary copy was
deleted (`os.unlink`) before the function returned or propagated.

* success (line 366): unlinked, sorted sites returned;
* missing `cookies` table (lines 351-354): unlinked, then the raised
  `Exception` is re-wrapped by the generic handler (line 375) into
  `"Failed to read cookies: ..."`;
* `sqlite3.OperationalError` (lines 370-373): re-raised as a plain
  `Exception` — `lockedMsg` when the message contains
  `"database is locked"`, else `"Database error: ..."`; **no unlink runs
  on this path**;
* any other exception (lines 374-375): re-raised as
  `"Failed to read cookies: ..."`; no unlink runs either. -/
def get_unique_sites_scan (outcome : ReadOutcome) :
    Except PyError (List String) × Bool :=
  match outcome with
  | .rows col => (.ok (get_unique_sites col), true)
  | .noTable =>
    (.error ⟨"Exception",
      "Failed to read cookies: Cookies table not found in database"⟩, true)
  | .opErr msg =>
    if pyIn "database is locked" msg then
      (.error ⟨"Exception", lockedMsg⟩, false)
    else
      (.error ⟨"Exception", "Database error: " ++ msg⟩, false)
  | .exnErr msg =>
    (.error ⟨"Exception", "Failed to read cookies: " ++ msg⟩, false)

/-- `CHROME_PROFILE` (source line 139), parameterized by the home
directory. -/
def chromeProfile (home : String) : String :=
  home ++ "/AppData/Local/Google/Chrome/User Data/Default"

/-- The initial `COOKIES_DB` path (source line 140). -/
def cookiesDbInit (home : String) : String :=
  chromeProfile home ++ "/Network/Cookies"

/-- The ordered fallback candidate list `default_paths` probed when
`COOKIES_DB` does not exist (source lines 327-331). -/
def default_paths (home : String) : List String :=
  [chromeProfile home ++ "/Cookies",
   chromeProfile home ++ "/Network/Cookies",
   home ++ "/AppData/Local/Google/Chrome/User Data/Default/Cookies"]

/-- The fixed `FileNotFoundError` message raised when no candidate exists
(source line 339). -/
def cookiesNotFoundMsg : String :=
  "Cookies DB not found\nEnsure Chrome is closed and path is correct."

/-- The cookie-store locator prologue of `get_unique_sites` (source lines
326-339): `ex` is the path-existence oracle, `cookies_db` the current
global `COOKIES_DB` value.  If it exists it is kept; otherwise the first
existing candidate of `default_paths` is adopted; if none exists a
`FileNotFoundError` with the fixed message is raised. -/
def locate_cookies_db (ex : String → Bool) (cookies_db home : String) :
    Except PyError String :=
  if ex cookies_db then .ok cookies_db
  else
    match (default_paths home).find? ex with
    | some p => .ok p
    | none => .error ⟨"FileNotFoundError", cookiesNotFoundMsg⟩

/-- The kind (Python exception class name) of the error a computation
failed with, `none` on success: what a caller catching by exception type
can observe. -/
def errKind {α : Type} : Except PyError α → Option String
  | .ok _ => none
  | .error e => some e.etype

/-- Existence/kind information for one path considered by
`create_backup`. -/
structure PathInfo where
  ex : Bool
  isFile : Bool
  isDir : Bool
deriving DecidableEq, Repr

/-- The environment `create_backup` reads (source lines 180-184):
`COOKIES_DB`, and for each of the two storage roots whether the `leveldb`
child exists (that is the inclusion test) together with the path
information of its **parent** directory (that is what gets copied). -/
structure BackupEnv where
  cookiesDb : PathInfo
  localStorageLeveldb : Bool
  localStorageParent : PathInfo
  sessionStorageLeveldb : Bool
  sessionStorageParent : PathInfo
deriving DecidableEq, Repr

/-- `files_to_backup` (source lines 180-184): the cookie store
unconditionally, each storage parent only when its `leveldb` child
exists (otherwise the list holds `None`). -/
def files_to_backup (env : BackupEnv) : List (Option PathInfo) :=
  [some env.cookiesDb,
   if env.localStorageLeveldb then some env.localStorageParent else none,
   if env.sessionStorageLeveldb then some env.sessionStorageParent else none]

/-- The copy loop's contribution of one backup entry to `backup_count`
(source lines 187-195): skipped when `None` or non-existent; `copy2` for
a file and `copytree` for a directory each add 1; an existing path that
is neither adds nothing. -/
def backupEntryCount : Option PathInfo → Nat
  | none => 0
  | some pi =>
    if pi.ex then (if pi.isFile then 1 else if pi.isDir then 1 else 0) else 0

/-- The `backup_info.txt` manifest lines (source lines 199-204), with the
timestamp and profile path abstracted. -/
def backupManifestLines (n : Nat) : List String :=
  ["Backup created: <timestamp>",
   "Original profile: <profile>",
   "Files backed up: " ++ toString n,
   "To restore: Copy these files back to their original locations",
   "WARNING: Chrome must be completely closed during restoration"]

/-- `create_backup` (source lines 173-206, success path): counts the
items actually copied, writes the manifest recording that count, and
returns the count to the caller.  Result: (returned item count, manifest
lines written). -/
def create_backup (env : BackupEnv) : Nat × List String :=
  let backup_count :=
    (files_to_backup env).foldl (fun n it => n + backupEntryCount it) 0
  (backup_count, backupManifestLines backup_count)

/-! ## Supporting lemmas -/

/-- `listCharLe` is the reflexive lexicographic order on character
lists. -/
theorem listCharLe_lex : ∀ as bs : List Char,
    listCharLe as bs = true ↔ (List.Lex (· < ·) as bs ∨ as = bs)
  | [], [] => by simp [listCharLe]
  | [], b :: bs => by
    simp only [listCharLe, true_iff]
    exact Or.inl List.Lex.nil
  | a :: as, [] => by
    simp [listCharLe]
  | a :: as, b :: bs => by
    by_cases hab : a = b
    · subst hab
      simp only [listCharLe, beq_self_eq_true, if_true]
      rw [listCharLe_lex as bs]
      constructor
      · rintro (h | rfl)
        · exact Or.inl (List.Lex.cons h)
        · exact Or.inr rfl
      · rintro (h | heq)
        · exact Or.inl (List.Lex.cons_iff.mp h)
        · cases heq
          exact Or.inr rfl
    · have hbeq : (a == b) = false := by
        simpa using hab
      simp only [listCharLe, hbeq, Bool.false_eq_true, if_false,
        decide_eq_true_eq]
      constructor
      · intro h
        exact Or.inl (List.Lex.rel h)
      · rintro (h | heq)
        · cases h with
          | cons h' => exact absurd rfl hab
          | rel h' => exact h'
        · cases heq
          exact absurd rfl hab

/-- `strLe` agrees with Mathlib's linear order on `String` (lexicographic
by code point, like Python's string comparison). -/
theorem strLe_iff (a b : String) : strLe a b = true ↔ a ≤ b := by
  rw [String.le_iff_toList_le, le_iff_lt_or_eq]
  have h := listCharLe_lex a.data b.data
  constructor
  · intro hle
    rcases h.mp hle with hl | he
    · exact Or.inl hl
    · exact Or.inr he
  · rintro (hl | he)
    · exact h.mpr (Or.inl hl)
    · exact h.mpr (Or.inr he)

/-- The cookie rows surviving the per-pattern delete loop are exactly
those matching none of the patterns. -/
theorem runDeletes_fst : ∀ (ps : List String) (db : List String),
    (runDeletes ps db).1 = db.filter (fun h => ps.all fun p => !(hostKeyLike p h))
  | [], db => by simp [runDeletes]
  | p :: ps, db => by
    simp only [runDeletes]
    rw [runDeletes_fst ps, List.filter_filter]
    apply List.filter_congr
    intro h _
    simp [List.all_cons, Bool.and_comm]

/-- A delete loop over rows that match none of the patterns removes
nothing and counts zero. -/
theorem runDeletes_of_no_match : ∀ (ps : List String) (db : List String),
    (∀ x ∈ db, ∀ p ∈ ps, hostKeyLike p x = false) → runDeletes ps db = (db, 0)
  | [], _, _ => rfl
  | p :: ps, db, h => by
    have h1 : db.filter (fun x => hostKeyLike p x) = [] :=
      List.filter_eq_nil_iff.mpr fun a ha => by
        simp [h a ha p (List.mem_cons_self p ps)]
    have h2 : db.filter (fun x => !(hostKeyLike p x)) = db :=
      List.filter_eq_self.mpr fun a ha => by
        simp [h a ha p (List.mem_cons_self p ps)]
    have hrec := runDeletes_of_no_match ps db
      (fun x hx q hq => h x hx q (List.mem_cons_of_mem p hq))
    simp [runDeletes, h1, h2, hrec]

/-- The delete loop's accumulated `rowcount` plus the surviving rows
account for every original row (each deleted row is counted exactly
once). -/
theorem runDeletes_count : ∀ (ps : List String) (db : List String),
    (runDeletes ps db).2 + (runDeletes ps db).1.length = db.length
  | [], db => by simp [runDeletes]
  | p :: ps, db => by
    simp only [runDeletes]
    have hrec := runDeletes_count ps (db.filter fun h => !(hostKeyLike p h))
    have hlen := List.length_eq_length_filter_add (l := db)
      (fun h => hostKeyLike p h)
    simp only at hrec hlen ⊢
    omega

/-- Membership in a first-seen deduplication. -/
theorem mem_distinctKeep : ∀ (acc l : List String) (x : String),
    x ∈ distinctKeep acc l ↔ x ∈ acc ∨ x ∈ l
  | acc, [], x => by simp [distinctKeep]
  | acc, y :: l, x => by
    simp only [distinctKeep]
    by_cases hy : y ∈ acc
    · rw [if_pos hy, mem_distinctKeep]
      constructor
      · rintro (h | h)
        · exact Or.inl h
        · exact Or.inr (List.mem_cons_of_mem y h)
      · rintro (h | h)
        · exact Or.inl h
        · rcases List.mem_cons.mp h with rfl | h'
          · exact Or.inl hy
          · exact Or.inr h'
    · rw [if_neg hy, mem_distinctKeep]
      simp only [List.mem_append, List.mem_singleton, List.mem_cons]
      tauto

/-- Membership in the row loop's output: the values appended by
`collectSites` are exactly the non-empty dot-stripped host keys (plus the
accumulator it started from). -/
theorem mem_collectSites : ∀ (acc l : List String) (x : String),
    x ∈ collectSites acc l ↔
      x ∈ acc ∨ (x ≠ "" ∧ ∃ h ∈ l, h ≠ "" ∧ lstripDots h = x)
  | acc, [], x => by simp [collectSites]
  | acc, h :: hs, x => by
    simp only [collectSites]
    by_cases hh : h ≠ ""
    · rw [if_pos hh]
      by_cases hcond : lstripDots h ≠ "" ∧ lstripDots h ∉ acc
      · rw [if_pos hcond, mem_collectSites]
        simp only [List.mem_append, List.mem_cons, List.not_mem_nil,
          or_false]
        constructor
        · rintro ((h1 | rfl) | ⟨hx, y, hy, hy2, hy3⟩)
          · exact Or.inl h1
          · exact Or.inr ⟨hcond.1, h, Or.inl rfl, hh, rfl⟩
          · exact Or.inr ⟨hx, y, Or.inr hy, hy2, hy3⟩
        · rintro (h1 | ⟨hx, y, (rfl | hy), hy2, hy3⟩)
          · exact Or.inl (Or.inl h1)
          · exact Or.inl (Or.inr hy3.symm)
          · exact Or.inr ⟨hx, y, hy, hy2, hy3⟩
      · rw [if_neg hcond, mem_collectSites]
        rcases not_and_or.mp hcond with hstrip | hmem
        · push_neg at hstrip
          simp only [List.mem_cons]
          constructor
          · rintro (h1 | ⟨hx, y, hy, hy2, hy3⟩)
            · exact Or.inl h1
            · exact Or.inr ⟨hx, y, Or.inr hy, hy2, hy3⟩
          · rintro (h1 | ⟨hx, y, (rfl | hy), hy2, hy3⟩)
            · exact Or.inl h1
            · exact absurd (hstrip ▸ hy3).symm hx
            · exact Or.inr ⟨hx, y, hy, hy2, hy3⟩
        · rw [not_not] at hmem
          simp only [List.mem_cons]
          constructor
          · rintro (h1 | ⟨hx, y, hy, hy2, hy3⟩)
            · exact Or.inl h1
            · exact Or.inr ⟨hx, y, Or.inr hy, hy2, hy3⟩
          · rintro (h1 | ⟨hx, y, (rfl | hy), hy2, hy3⟩)
            · exact Or.inl h1
            · exact Or.inl (hy3 ▸ hmem)
            · exact Or.inr ⟨hx, y, hy, hy2, hy3⟩
    · rw [if_neg hh, mem_collectSites]
      rw [not_not] at hh
      simp only [List.mem_cons]
      constructor
      · rintro (h1 | ⟨hx, y, hy, hy2, hy3⟩)
        · exact Or.inl h1
        · exact Or.inr ⟨hx, y, Or.inr hy, hy2, hy3⟩
      · rintro (h1 | ⟨hx, y, (rfl | hy), hy2, hy3⟩)
        · exact Or.inl h1
        · exact absurd hh hy2
        · exact Or.inr ⟨hx, y, hy, hy2, hy3⟩

/-- The row loop never appends a value it has already kept. -/
theorem nodup_collectSites : ∀ (acc l : List String),
    acc.Nodup → (collectSites acc l).Nodup
  | acc, [], h => h
  | acc, h :: hs, hnd => by
    simp only [collectSites]
    by_cases hh : h ≠ ""
    · rw [if_pos hh]
      by_cases hcond : lstripDots h ≠ "" ∧ lstripDots h ∉ acc
      · rw [if_pos hcond]
        exact nodup_collectSites (acc ++ [lstripDots h]) hs
          (by simp [List.nodup_append, hnd, hcond.2])
      · rw [if_neg hcond]
        exact nodup_collectSites acc hs hnd
    · rw [if_neg hh]
      exact nodup_collectSites acc hs hnd

/-- `pySorted` permutes its input. -/
theorem pySorted_perm (l : List String) : List.Perm (pySorted l) l :=
  List.perm_insertionSort _ l

/-- `pySorted` output is sorted for Mathlib's linear order on `String`
(lexicographic by code point). -/
theorem pySorted_sorted (l : List String) :
    (pySorted l).Sorted (fun a b : String => a ≤ b) := by
  letI : IsTotal String (fun a b : String => strLe a b = true) :=
    ⟨fun a b => by
      rcases le_total a b with h | h
      · exact Or.inl ((strLe_iff a b).mpr h)
      · exact Or.inr ((strLe_iff b a).mpr h)⟩
  letI : IsTrans String (fun a b : String => strLe a b = true) :=
    ⟨fun a b c hab hbc =>
      (strLe_iff a c).mpr (le_trans ((strLe_iff a b).mp hab)
        ((strLe_iff b c).mp hbc))⟩
  have h := List.sorted_insertionSort (fun a b : String => strLe a b = true) l
  exact List.Pairwise.imp (fun hab => (strLe_iff _ _).mp hab) h

/-- A second sweep of a storage root removes nothing: everything matching
the site was already filtered out. -/
theorem processRoot_second (sl n1 n2 : String) (root : Option (List FsItem)) :
    (processRoot sl n2 (processRoot sl n1 root).1).2 = [] := by
  cases root with
  | none => rfl
  | some items =>
    simp only [processRoot, List.filter_filter]
    rw [List.filter_eq_nil_iff.mpr ?_]
    · rfl
    · intro a _
      simp

/-- The storage sub-operation's log entries, as a function of its deleted
items: one `STORAGE`/`SUCCESS` entry when anything was removed, none
otherwise. -/
theorem storage_logs_eq (site : String) (st : StorageState) :
    (delete_site_data_folders site st).2.2 =
      if (delete_site_data_folders site st).2.1.isEmpty then []
      else [⟨site, "STORAGE", "SUCCESS",
        toString (delete_site_data_folders site st).2.1.length ++ " items"⟩] :=
  rfl

/-! ## Claims -/

/-- **C1** (corrected).  The cookie sub-operation appends exactly one
`COOKIES` audit entry per call, on its success and on its error path
alike; the storage sub-operation appends exactly one `STORAGE` entry when
it removed at least one item and **none** when it removed zero items
(the claim's "including when zero items were removed" fails for the
storage category, see the counterexample). -/
theorem audit_log_per_suboperation (site : String)
    (conn : Except PyError (List String)) (st : StorageState) :
    (delete_cookies_for_site_caught site conn).2.2.length = 1 ∧
    (∀ e ∈ (delete_cookies_for_site_caught site conn).2.2,
        e.site = site ∧ e.category = "COOKIES") ∧
    ((delete_site_data_folders site st).2.1 = [] →
        (delete_site_data_folders site st).2.2 = []) ∧
    ((delete_site_data_folders site st).2.1 ≠ [] →
        (delete_site_data_folders site st).2.2 =
          [⟨site, "STORAGE", "SUCCESS",
            toString (delete_site_data_folders site st).2.1.length ++
              " items"⟩]) := by
  refine ⟨?_, ?_, ?_, ?_⟩
  · cases conn <;> rfl
  · intro e he
    cases conn with
    | ok db =>
      simp only [delete_cookies_for_site_caught, delete_cookies_for_site,
        List.mem_singleton] at he
      subst he
      exact ⟨rfl, rfl⟩
    | error err =>
      simp only [delete_cookies_for_site_caught,
        List.mem_singleton] at he
      subst he
      exact ⟨rfl, rfl⟩
  · intro h
    rw [storage_logs_eq, h]
    rfl
  · intro h
    rw [storage_logs_eq, if_neg]
    simpa [List.isEmpty_iff] using h

/-- Witness for C1: a storage sweep that removes one item logs exactly
the single `STORAGE` entry. -/
theorem audit_log_per_suboperation_witness :
    (delete_site_data_folders "x.com"
      ⟨some [⟨"https_x.com_0.ldb", true⟩], none, none, none, none⟩).2.2 =
      [⟨"x.com", "STORAGE", "SUCCESS", "1 items"⟩] := by
  have h := audit_log_per_suboperation "x.com" (Except.ok [])
    ⟨some [⟨"https_x.com_0.ldb", true⟩], none, none, none, none⟩
  exact (h.2.2.2 (by decide)).trans (by decide)

/-- **C1 counterexample**: a storage sweep over an existing root whose
only child does not match the site removes zero items and appends **zero**
audit entries, not one. -/
theorem storage_zero_items_no_log_cex :
    (delete_site_data_folders "x.com"
      ⟨some [⟨"https_unrelated.org_0.ldb", false⟩], none, none, none,
        none⟩).2.1 = [] ∧
    (delete_site_data_folders "x.com"
      ⟨some [⟨"https_unrelated.org_0.ldb", false⟩], none, none, none,
        none⟩).2.2.length = 0 := by
  decide

/-- **C2** (code bug).  The temporary copy **is** unlinked on the normal
return and on the missing-table path, but when reading raises
`sqlite3.OperationalError` (e.g. `"disk I/O error"`) the handler re-raises
without ever unlinking, so the temp copy leaks: the second component
(`temp copy deleted?`) is `false` on that exit path. -/
theorem temp_copy_unlink_paths :
    (get_unique_sites_scan (.opErr "disk I/O error")).2 = false ∧
    (get_unique_sites_scan (.opErr "disk I/O error")).1 =
      Except.error ⟨"Exception", "Database error: disk I/O error"⟩ ∧
    (get_unique_sites_scan (.rows [some "a.com"])).2 = true ∧
    (get_unique_sites_scan ReadOutcome.noTable).2 = true :=
  ⟨rfl, rfl, rfl, rfl⟩

/-- **C3** (corrected, amended theorem).  `get_unique_sites` returns a
lexicographically sorted, duplicate-free list whose members are exactly
the non-empty results of stripping **all** leading dots (Python
`lstrip('.')`) from the non-NULL host keys; the claim's example
evaluates as stated. -/
theorem get_unique_sites_spec (col : List (Option String)) :
    (get_unique_sites col).Sorted (fun a b : String => a ≤ b) ∧
    (get_unique_sites col).Nodup ∧
    (∀ x, x ∈ get_unique_sites col ↔
      (x ≠ "" ∧ ∃ h, some h ∈ col ∧ lstripDots h = x)) ∧
    get_unique_sites [some "a.com", some ".a.com", some "B.com"] =
      ["B.com", "a.com"] := by
  refine ⟨pySorted_sorted _, ?_, ?_, by decide⟩
  · exact ((pySorted_perm _).nodup_iff).mpr
      (nodup_collectSites _ _ List.nodup_nil)
  · intro x
    simp only [get_unique_sites]
    rw [(pySorted_perm _).mem_iff, mem_collectSites]
    simp only [List.not_mem_nil, false_or]
    constructor
    · rintro ⟨hx, h, hmem, hne, hstrip⟩
      rw [mem_distinctKeep] at hmem
      rcases hmem with h0 | hmem
      · cases h0
      · obtain ⟨hfm, -⟩ := List.mem_filter.mp hmem
        obtain ⟨a, ha, hida⟩ := List.mem_filterMap.mp hfm
        refine ⟨hx, h, ?_, hstrip⟩
        have : a = some h := hida
        rwa [this] at ha
    · rintro ⟨hx, h, hcol, hstrip⟩
      have hne : h ≠ "" := by
        intro h0
        rw [h0] at hstrip
        exact hx hstrip.symm
      refine ⟨hx, h, ?_, hne, hstrip⟩
      rw [mem_distinctKeep]
      refine Or.inr (List.mem_filter.mpr ⟨?_, by simpa using hne⟩)
      exact List.mem_filterMap.mpr ⟨some h, hcol, rfl⟩

/-- **C3 counterexample**: the source strips **all** leading dots
(`lstrip('.')`), not a single one — on host key `"..a.com"` the code
yields `"a.com"` where the claim demands `".a.com"`. -/
theorem strip_single_dot_cex :
    get_unique_sites [some "..a.com"] = ["a.com"] ∧
    stripOneDot "..a.com" = ".a.com" ∧
    get_unique_sites [some "..a.com"] ≠ [stripOneDot "..a.com"] := by
  decide

/-- **C4** (confirmed).  On the claim's seeded cookie store, deleting
`"x.com"` removes every row except `"evil-x.com"` and reports 4: the
patterns are anchored, not naive substrings. -/
theorem cookie_pattern_coverage :
    delete_cookies_for_site "x.com"
      ["x.com", ".x.com", "www.x.com", "api.x.com", "evil-x.com"] =
      (["evil-x.com"], 4,
        [⟨"x.com", "COOKIES", "SUCCESS", "4 deleted"⟩]) := by
  decide

/-- **C5** (corrected, amended theorem).  The surviving rows are exactly
those matching no derived pattern and the reported count is the total
number of rows removed (each row counted once across the sequential
per-pattern `DELETE`s); matching is **case-insensitive** on ASCII letters
(SQLite's default `LIKE`), e.g. pattern `"x.com"` matches host key
`"X.CoM"`. -/
theorem cookie_delete_count_spec (site : String) (db : List String) :
    (delete_cookies_for_site site db).1 =
      db.filter (fun h => (cookiePatterns site).all
        fun p => !(hostKeyLike p h)) ∧
    (delete_cookies_for_site site db).2.1 +
      (delete_cookies_for_site site db).1.length = db.length ∧
    hostKeyLike "x.com" "X.CoM" = true := by
  refine ⟨?_, ?_, by decide⟩
  · simpa [delete_cookies_for_site] using
      runDeletes_fst (cookiePatterns site) db
  · simpa [delete_cookies_for_site] using
      runDeletes_count (cookiePatterns site) db

/-- **C5 counterexample**: a cookie row whose host key `"X.COM"` differs
from the derived patterns of site `"x.com"` only in letter case **is**
deleted (SQLite `LIKE` is case-insensitive for ASCII by default), refuting
the claimed case-sensitivity. -/
theorem cookie_case_sensitivity_cex :
    delete_cookies_for_site "x.com" ["X.COM"] =
      ([], 1, [⟨"x.com", "COOKIES", "SUCCESS", "1 deleted"⟩]) ∧
    "X.COM" ∉ cookiePatterns "x.com" ∧
    hostKeyLike "x.com" "X.COM" = true := by
  decide

/-- **C6** (corrected, amended theorem).  A locked store makes the scan
fail with a plain `Exception` carrying the fixed message
`lockedMsg`; the caller can distinguish it from the generic
`"Database error: ..."` failures **only by message text** — the locked
message never coincides with any generic database-error message — not by
a distinct error kind. -/
theorem locked_error_message_spec (msg : String)
    (h : pyIn "database is locked" msg = true) :
    (get_unique_sites_scan (.opErr msg)).1 =
      Except.error ⟨"Exception", lockedMsg⟩ ∧
    errKind (get_unique_sites_scan (.opErr msg)).1 = some "Exception" ∧
    ∀ m : String, lockedMsg ≠ "Database error: " ++ m := by
  refine ⟨?_, ?_, ?_⟩
  · simp [get_unique_sites_scan, h]
  · simp [get_unique_sites_scan, h, errKind]
  · intro m hEq
    have hd : lockedMsg.data.head? = ("Database error: " ++ m).data.head? := by
      rw [hEq]
    exact absurd (show some 'C' = some 'D' from hd) (by decide)

/-- Witness for C6's amended theorem at a concrete locked message. -/
theorem locked_error_message_spec_witness :
    (get_unique_sites_scan (.opErr "database is locked")).1 =
      Except.error ⟨"Exception", lockedMsg⟩ :=
  (locked_error_message_spec "database is locked" (by decide)).1

/-- **C6 counterexample**: the locked failure and a generic database
failure carry the **same** error kind (both are plain Python `Exception`s),
so the locked condition is not distinguishable as a distinct error kind. -/
theorem locked_error_kind_cex :
    errKind (get_unique_sites_scan (.opErr "database is locked")).1 =
      some "Exception" ∧
    errKind (get_unique_sites_scan (.opErr "attempt to write a readonly database")).1 =
      some "Exception" ∧
    (get_unique_sites_scan (.opErr "database is locked")).1 =
      Except.error ⟨"Exception", lockedMsg⟩ ∧
    (get_unique_sites_scan (.opErr "attempt to write a readonly database")).1 =
      Except.error ⟨"Exception",
        "Database error: attempt to write a readonly database"⟩ :=
  ⟨rfl, rfl, rfl, rfl⟩

/-- **C7** (corrected, amended theorem).  When the current cookie-store
path is missing, the locator probes the ordered candidate list and adopts
the first existing one; when none exists it raises `FileNotFoundError`
with the **fixed** message `cookiesNotFoundMsg` (which does not name the
candidates, see the counterexample). -/
theorem locate_fallback_spec (ex : String → Bool) (db home : String) :
    (ex db = true → locate_cookies_db ex db home = .ok db) ∧
    (∀ p, ex db = false → (default_paths home).find? ex = some p →
      locate_cookies_db ex db home = .ok p ∧ ex p = true ∧
        p ∈ default_paths home) ∧
    (ex db = false → (∀ p ∈ default_paths home, ex p = false) →
      locate_cookies_db ex db home =
        .error ⟨"FileNotFoundError", cookiesNotFoundMsg⟩) := by
  refine ⟨?_, ?_, ?_⟩
  · intro h
    simp [locate_cookies_db, h]
  · intro p hdb hfind
    refine ⟨?_, List.find?_some hfind, List.mem_of_find?_eq_some hfind⟩
    simp [locate_cookies_db, hdb, hfind]
  · intro hdb hnone
    have hfind : (default_paths home).find? ex = none :=
      List.find?_eq_none.mpr (fun x hx => by simp [hnone x hx])
    simp [locate_cookies_db, hdb, hfind]

/-- Witness for C7's amended theorem: with no candidate existing, the
locator fails with the fixed `FileNotFoundError`. -/
theorem locate_fallback_spec_witness :
    locate_cookies_db (fun _ => false) (cookiesDbInit "H") "H" =
      Except.error ⟨"FileNotFoundError", cookiesNotFoundMsg⟩ :=
  (locate_fallback_spec (fun _ => false) (cookiesDbInit "H") "H").2.2 rfl
    (fun _ _ => rfl)

/-- **C7 counterexample**: the raised message is the fixed text and names
**none** of the candidate paths that were probed. -/
theorem notfound_message_cex :
    locate_cookies_db (fun _ => false) (cookiesDbInit "HOME") "HOME" =
      Except.error ⟨"FileNotFoundError", cookiesNotFoundMsg⟩ ∧
    (default_paths "HOME").all (fun p => !(pyIn p cookiesNotFoundMsg)) =
      true := by
  exact ⟨rfl, by decide⟩

/-- **C8** (confirmed).  Deletion is idempotent per site: a second
identical pair of calls on the state left by the first completes (the
model is total, mirroring that no exception escapes) with a cookie count
of 0 logged as `NONE`, and an empty list of removed storage items. -/
theorem delete_site_idempotent (site : String) (db : List String)
    (st : StorageState) :
    (delete_cookies_for_site site
      (delete_cookies_for_site site db).1).2.1 = 0 ∧
    (delete_cookies_for_site site
      (delete_cookies_for_site site db).1).2.2 =
      [⟨site, "COOKIES", "NONE", "0 deleted"⟩] ∧
    (delete_site_data_folders site
      (delete_site_data_folders site st).1).2.1 = [] ∧
    (delete_site_data_folders site
      (delete_site_data_folders site st).1).2.2 = [] := by
  have hmatch : ∀ x ∈ (runDeletes (cookiePatterns site) db).1,
      ∀ p ∈ cookiePatterns site, hostKeyLike p x = false := by
    intro x hx p hp
    rw [runDeletes_fst] at hx
    have hall := (List.mem_filter.mp hx).2
    have := List.all_eq_true.mp hall p hp
    simpa using this
  have hrun := runDeletes_of_no_match (cookiePatterns site)
    (runDeletes (cookiePatterns site) db).1 hmatch
  refine ⟨?_, ?_, ?_, ?_⟩
  · simp [delete_cookies_for_site, hrun]
  · simp only [delete_cookies_for_site, hrun]
    norm_num
    rfl
  · simp [delete_site_data_folders, processRoot_second]
  · simp [delete_site_data_folders, processRoot_second]

/-- **C9** (confirmed).  With only the cookie store present (the two
storage `leveldb` directories absent), `create_backup` returns item count
1 and the manifest states the same; in general the manifest's
`Files backed up:` line always carries the returned count. -/
theorem backup_manifest_count (env : BackupEnv) :
    create_backup ⟨⟨true, true, false⟩, false, ⟨true, false, true⟩, false,
      ⟨true, false, true⟩⟩ = (1, backupManifestLines 1) ∧
    (create_backup env).2[2]? =
      some ("Files backed up: " ++ toString (create_backup env).1) ∧
    (create_backup env).2 = backupManifestLines (create_backup env).1 := by
  exact ⟨by decide, rfl, rfl⟩

/-- **C10** (confirmed).  `delete_cookies_for_site` never propagates an
exception: the raising branch is caught, yields one `COOKIES`/`ERROR`
audit entry carrying the exception's message, and returns 0; on every
input the call returns normally with exactly one log entry. -/
theorem cookie_delete_no_propagation (site : String) (e : PyError)
    (conn : Except PyError (List String)) :
    delete_cookies_for_site_caught site (Except.error e) =
      (none, 0, [⟨site, "COOKIES", "ERROR", e.msg⟩]) ∧
    (delete_cookies_for_site_caught site conn).2.2.length = 1 := by
  refine ⟨rfl, ?_⟩
  cases conn <;> rfl

end ChromeCleaner
